import Mathlib

/-
Verification of the jira-gram comment-reply subsystem.

The definitions below are a shallow embedding of the packaged layout of the
repository (src/jira_gram): the reply resolution engine
(JiraClient.reply_to_comment in jira/client.py), the comment read path
(JiraClient.get_issue_comments), the authorization check (bot/auth.py), the
pending-reply tracker (the pending_replies dict in bot/handlers.py) and the
two handlers that drive it (the reply_ branch of button_callback, and
handle_reply_message).

Backend calls are modelled by a capability backend : Attempt → Bool, where
true means the call completed without raising and false means it raised.
Python truthiness on optional strings (None and the empty string are falsy)
is modelled by optTruthy. Chat-visible and state-changing side effects are
recorded as an ordered Effect trace.
-/

namespace JiraGram

/-- A JSON-like value, used for the ADF (Atlassian Document Format) comment
bodies that reply_to_comment builds. -/
inductive Json where
  | str : String → Json
  | num : Nat → Json
  | arr : List Json → Json
  | obj : List (String × Json) → Json

/-- The body handed to the backend add_comment call: either a Python dict
(holding the ADF document under the key "body") or a plain string. -/
inductive CommentBody where
  | dict : Json → CommentBody
  | text : String → CommentBody

/-- One entry of the attempts list in reply_to_comment: the logging label
paired with the comment body submitted for that attempt. -/
structure Attempt where
  label : String
  body : CommentBody

/-- Python truthiness of an optional string: None and the empty string are
falsy, every non-empty string is truthy. -/
def optTruthy : Option String → Bool
  | none => false
  | some s => !s.isEmpty

/-- The comment URL built at the top of reply_to_comment. -/
def commentUrl (url issue_key parent_comment_id : String) : String :=
  url ++ "/browse/" ++ issue_key ++ "?focusedCommentId=" ++ parent_comment_id
    ++ "&page=com.atlassian.jira.plugin.system.issuetabpanels:comment-tab"
    ++ "#comment-" ++ parent_comment_id

/-- The reply_content list: the whole reply text in one ADF text node. -/
def replyContent (reply_text : String) : List Json :=
  [Json.obj [("type", Json.str "text"), ("text", Json.str reply_text)]]

/-- The ADF text node linking back to the parent comment. -/
def linkNode (comment_url parent_comment_id : String) : Json :=
  Json.obj [("type", Json.str "text"),
    ("text", Json.str ("comment #" ++ parent_comment_id)),
    ("marks", Json.arr [Json.obj [("type", Json.str "link"),
      ("attrs", Json.obj [("href", Json.str comment_url)])]])]

/-- adf_body_with_mention: doc with link to the parent comment and a mention
node addressed to the account id, followed by the reply text. -/
def adfBodyWithMention (comment_url parent_comment_id mention_account_id
    mention_display_name : String) (reply_content : List Json) : Json :=
  Json.obj [("type", Json.str "doc"), ("version", Json.num 1),
    ("content", Json.arr [
      Json.obj [("type", Json.str "paragraph"), ("content", Json.arr (
        [Json.obj [("type", Json.str "text"), ("text", Json.str "Replying to ")],
         linkNode comment_url parent_comment_id,
         Json.obj [("type", Json.str "text"), ("text", Json.str " and mentioning ")],
         Json.obj [("type", Json.str "mention"),
           ("attrs", Json.obj [("id", Json.str mention_account_id),
             ("text", Json.str ("@" ++ mention_display_name))])],
         Json.obj [("type", Json.str "text"), ("text", Json.str ". ")]]
        ++ reply_content))]])]

/-- adf_body_with_link: doc with the link to the parent comment only. -/
def adfBodyWithLink (comment_url parent_comment_id : String)
    (reply_content : List Json) : Json :=
  Json.obj [("type", Json.str "doc"), ("version", Json.num 1),
    ("content", Json.arr [
      Json.obj [("type", Json.str "paragraph"), ("content", Json.arr (
        [Json.obj [("type", Json.str "text"), ("text", Json.str "Replying to ")],
         linkNode comment_url parent_comment_id,
         Json.obj [("type", Json.str "text"), ("text", Json.str ". ")]]
        ++ reply_content))]])]

/-- The attempts list built by reply_to_comment, mirrored statement by
statement from the source: the structured-mention entry is appended only when
both optional mention arguments are truthy, then the link-only entry is
appended unconditionally, then the plain-text-with-mention entry only when
the account id is truthy, then the plain comment unconditionally. -/
def mkAttempts (url issue_key parent_comment_id reply_text : String)
    (mention_account_id mention_display_name : Option String) : List Attempt :=
  let comment_url := commentUrl url issue_key parent_comment_id
  let reply_content := replyContent reply_text
  let attempts : List Attempt := []
  let attempts :=
    if optTruthy mention_account_id && optTruthy mention_display_name then
      attempts ++ [⟨"ADF with mention and link",
        CommentBody.dict (Json.obj [("body",
          adfBodyWithMention comment_url parent_comment_id
            (mention_account_id.getD "") (mention_display_name.getD "")
            reply_content)])⟩]
    else attempts
  let attempts := attempts ++ [⟨"ADF with link only",
    CommentBody.dict (Json.obj [("body",
      adfBodyWithLink comment_url parent_comment_id reply_content)])⟩]
  let attempts :=
    if optTruthy mention_account_id then
      attempts ++ [⟨"plain text with mention",
        CommentBody.text ("[~accountid:\x7b" ++ mention_account_id.getD ""
          ++ "\x7d] " ++ reply_text)⟩]
    else attempts
  attempts ++ [⟨"plain comment", CommentBody.text reply_text⟩]

/-- Result of the cascade: the returned boolean and the ordered list of
attempts actually sent to the backend (each one backend add_comment call). -/
structure SubmitResult where
  ok : Bool
  calls : List Attempt

/-- The for-loop of reply_to_comment: try each attempt in order; an attempt
that does not raise ends the loop with result true; an attempt that raises is
logged and the loop continues; if the list is exhausted the result is
false. -/
def runAttempts (backend : Attempt → Bool) : List Attempt → SubmitResult
  | [] => ⟨false, []⟩
  | a :: rest =>
    if backend a then ⟨true, [a]⟩
    else
      let r := runAttempts backend rest
      ⟨r.ok, a :: r.calls⟩

/-- JiraClient.reply_to_comment: build the attempts list and run the
cascade. url models self.url of the client. -/
def reply_to_comment (backend : Attempt → Bool)
    (url issue_key parent_comment_id reply_text : String)
    (mention_account_id mention_display_name : Option String) : SubmitResult :=
  runAttempts backend
    (mkAttempts url issue_key parent_comment_id reply_text
      mention_account_id mention_display_name)

/-- is_authorized from bot/auth.py: when the configured allow-list is empty
every user is authorized; otherwise membership in the list decides. -/
def is_authorized (allowed_user_ids : List Int) (user_id : Int) : Bool :=
  if allowed_user_ids.isEmpty then true
  else allowed_user_ids.contains user_id

/-- One fetched comment as projected by JiraClient.get_issue_comments. -/
structure CommentRecord where
  id : String
  author : String
  author_account_id : Option String
  body : String
  created : String
deriving DecidableEq, Repr

/-- JiraClient.get_issue_comments: the backend fetch outcome is either the
list of comments or a raised error; on any exception the method logs and
returns the empty list. -/
def get_issue_comments (fetched : Except String (List CommentRecord)) :
    List CommentRecord :=
  match fetched with
  | Except.ok comments => comments
  | Except.error _ => []

/-- Python str.lower() for the ASCII range: each upper-case ASCII letter is
mapped to its lower-case counterpart. -/
def lowerChar (c : Char) : Char :=
  if 'A' ≤ c ∧ c ≤ 'Z' then Char.ofNat (c.toNat + 32) else c

/-- Python str.lower() on a string. -/
def pyLower (s : String) : String := String.mk (s.data.map lowerChar)

/-- Python str.strip(): removes leading and trailing whitespace. -/
def pyStrip (s : String) : String :=
  String.mk (((s.data.dropWhile Char.isWhitespace).reverse.dropWhile
    Char.isWhitespace).reverse)

/-- One entry of the pending_replies dict in bot/handlers.py. The author and
body fields are optional because handle_reply_message reads them with
dict.get and a default. -/
structure PendingReply where
  issue_key : String
  comment_id : String
  original_author : Option String
  original_author_account_id : Option String
  original_body : Option String
deriving DecidableEq, Repr

/-- The pending_replies dict, modelled as an association list keyed by the
Telegram user id. -/
abbrev Tracker := List (Int × PendingReply)

/-- Dict lookup: pending_replies[user_id] when present. -/
def tlookup : Tracker → Int → Option PendingReply
  | [], _ => none
  | (k, v) :: rest, uid => if k == uid then some v else tlookup rest uid

/-- Dict assignment pending_replies[user_id] = intent: replaces the entry for
the key when present, appends otherwise. -/
def tinsert : Tracker → Int → PendingReply → Tracker
  | [], uid, p => [(uid, p)]
  | (k, v) :: rest, uid, p =>
    if k == uid then (uid, p) :: rest else (k, v) :: tinsert rest uid p

/-- Dict deletion del pending_replies[user_id]: removes the entry for the
key. -/
def terase : Tracker → Int → Tracker
  | [], _ => []
  | (k, v) :: rest, uid =>
    if k == uid then terase rest uid else (k, v) :: terase rest uid

/-- An observable side effect of a handler, in the order it is performed:
a chat reply message, an edit of the pressed message, one backend
add_comment call (identified by the attempt label), or a mutation of the
pending_replies dict. -/
inductive Effect where
  | reply : String → Effect
  | editMessage : String → Effect
  | backendCall : String → Effect
  | trackerSet : Int → Effect
  | trackerDel : Int → Effect
deriving DecidableEq, Repr

/-- The reply_ branch of button_callback in bot/handlers.py (after the
authorization check and the parsing of the callback payload into issue_key
and comment_id): fetch the comments, look up the target comment by id, and
either report "Comment not found." leaving the dict unchanged, or store the
pending reply for the user and show the prompt. -/
def buttonCallbackReply (fetched : Except String (List CommentRecord))
    (st : Tracker) (user_id : Int) (issue_key comment_id : String) :
    Tracker × List Effect :=
  let comments := get_issue_comments fetched
  match comments.find? (fun c => c.id == comment_id) with
  | none => (st, [Effect.editMessage "Comment not found."])
  | some original_comment =>
    (tinsert st user_id
      ⟨issue_key, comment_id, some original_comment.author,
        original_comment.author_account_id, some original_comment.body⟩,
     [Effect.trackerSet user_id,
      Effect.editMessage ("💬 <b>Reply to comment on " ++ issue_key
        ++ "</b>\n\nReplying to: <b>" ++ original_comment.author
        ++ "</b>\n\nPlease type your reply message. I\x27ll add it as a"
        ++ " reply to the comment.\n\nType /cancel to cancel.")])

/-- handle_reply_message from bot/handlers.py, for an update that carries
message text. In order: the authorization check; the silent return when the
user has no pending reply; stripping the text; the cancel command; otherwise
the pending intent is read and deleted, the status message is sent, the
mention text is formatted from the captured account id or author name, and
reply_to_comment is called with that mention text passed as its fourth
positional argument (mention_account_id) and nothing as its fifth
(mention_display_name), followed by the success or failure message. -/
def handleReplyMessage (allowed_user_ids : List Int) (url : String)
    (backend : Attempt → Bool) (st : Tracker) (user_id : Int)
    (text : String) : Tracker × List Effect :=
  if !is_authorized allowed_user_ids user_id then
    (st, [Effect.reply "Sorry, you are not authorized to use this bot."])
  else
    match tlookup st user_id with
    | none => (st, [])
    | some pending =>
      let reply_text := pyStrip text
      if pyLower reply_text == "/cancel" || pyLower reply_text == "cancel" then
        (terase st user_id,
         [Effect.trackerDel user_id, Effect.reply "❌ Reply cancelled."])
      else
        let issue_key := pending.issue_key
        let comment_id := pending.comment_id
        let original_author := pending.original_author.getD "Unknown"
        let original_author_account_id := pending.original_author_account_id
        let mention_text :=
          if optTruthy original_author_account_id then
            "[~" ++ original_author_account_id.getD "" ++ "] "
          else
            "Replying to " ++ original_author ++ ": "
        let r := reply_to_comment backend url issue_key comment_id reply_text
          (some mention_text) none
        (terase st user_id,
         [Effect.trackerDel user_id,
          Effect.reply ("Adding reply to comment on " ++ issue_key ++ "...")]
         ++ r.calls.map (fun a => Effect.backendCall a.label)
         ++ [Effect.reply (if r.ok then
              "✅ Reply added successfully to comment on " ++ issue_key ++ "!"
            else
              "❌ Failed to add reply to comment on " ++ issue_key
                ++ ". Please try again.")])

/-- Number of entries stored under a given key of the tracker. -/
def keyCount (st : Tracker) (uid : Int) : Nat :=
  (st.filter (fun e => e.1 == uid)).length

/-- The labels of the backend add_comment calls occurring in an effect
trace, in order. -/
def backendCallLabels (effects : List Effect) : List String :=
  effects.filterMap (fun e =>
    match e with
    | Effect.backendCall l => some l
    | _ => none)

/-! ### Helper lemmas about the cascade loop -/

/-- The cascade result is true exactly when some attempt of the list is
accepted by the backend. -/
theorem runAttempts_ok (b : Attempt → Bool) (l : List Attempt) :
    (runAttempts b l).ok = l.any b := by
  induction l with
  | nil => rfl
  | cons a rest ih => cases h : b a <;> simp [runAttempts, h, ih]

/-- The attempts actually sent are the maximal failing segment of the list
followed by the first accepted attempt, when one exists. -/
theorem runAttempts_calls (b : Attempt → Bool) (l : List Attempt) :
    (runAttempts b l).calls
      = l.takeWhile (fun a => !b a) ++ (l.dropWhile (fun a => !b a)).take 1 := by
  induction l with
  | nil => rfl
  | cons a rest ih => cases h : b a <;> simp [runAttempts, h, ih]

/-- When every attempt raises, the loop runs through the whole list. -/
theorem runAttempts_calls_of_all_fail (b : Attempt → Bool) (l : List Attempt)
    (h : ∀ a ∈ l, b a = false) : (runAttempts b l).calls = l := by
  induction l with
  | nil => rfl
  | cons a rest ih =>
    have ha := h a (by simp)
    simp [runAttempts, ha]
    exact ih (fun x hx => h x (by simp [hx]))

/-- The labels of the attempts list, in the fixed cascade order, with each
conditional entry present exactly when its precondition is truthy. -/
theorem mkAttempts_labels (url issue_key parent_comment_id reply_text : String)
    (mention_account_id mention_display_name : Option String) :
    (mkAttempts url issue_key parent_comment_id reply_text
        mention_account_id mention_display_name).map Attempt.label
      = (if optTruthy mention_account_id && optTruthy mention_display_name then
          ["ADF with mention and link"] else [])
        ++ ["ADF with link only"]
        ++ (if optTruthy mention_account_id then ["plain text with mention"] else [])
        ++ ["plain comment"] := by
  unfold mkAttempts
  cases hma : optTruthy mention_account_id
    <;> cases hmd : optTruthy mention_display_name <;> simp

/-- The attempts list always holds at least the two unconditional entries. -/
theorem mkAttempts_length_ge_two (url issue_key parent_comment_id reply_text : String)
    (mention_account_id mention_display_name : Option String) :
    2 ≤ (mkAttempts url issue_key parent_comment_id reply_text
        mention_account_id mention_display_name).length := by
  unfold mkAttempts
  cases hma : optTruthy mention_account_id
    <;> cases hmd : optTruthy mention_display_name <;> simp

/-! ### Helper lemmas about the tracker dict -/

/-- Looking up a freshly assigned key returns the assigned intent. -/
theorem tlookup_tinsert_self (st : Tracker) (uid : Int) (p : PendingReply) :
    tlookup (tinsert st uid p) uid = some p := by
  induction st with
  | nil => simp [tinsert, tlookup]
  | cons kv rest ih =>
    obtain ⟨k, v⟩ := kv
    by_cases h : k = uid
    · simp [tinsert, tlookup, h]
    · simp [tinsert, tlookup, h, ih]

/-- Looking up a deleted key returns nothing. -/
theorem tlookup_terase_self (st : Tracker) (uid : Int) :
    tlookup (terase st uid) uid = none := by
  induction st with
  | nil => rfl
  | cons kv rest ih =>
    obtain ⟨k, v⟩ := kv
    by_cases h : k = uid
    · simp [terase, h, ih]
    · simp [terase, tlookup, h, ih]

/-- Keys of the tracker after a dict assignment: unchanged when the key was
already stored, extended by the key otherwise. -/
theorem keys_tinsert (st : Tracker) (uid : Int) (p : PendingReply) :
    (tinsert st uid p).map Prod.fst
      = if uid ∈ st.map Prod.fst then st.map Prod.fst
        else st.map Prod.fst ++ [uid] := by
  induction st with
  | nil => simp [tinsert]
  | cons kv rest ih =>
    obtain ⟨k, v⟩ := kv
    by_cases hk : k = uid
    · simp [tinsert, hk]
    · by_cases hmem : uid ∈ rest.map Prod.fst
      · simp [tinsert, hk, hmem, ih, Ne.symm hk]
      · simp [tinsert, hk, hmem, ih, Ne.symm hk]

/-- Dict assignment keeps the keys of the tracker without duplicates. -/
theorem keys_nodup_tinsert (st : Tracker) (uid : Int) (p : PendingReply)
    (h : (st.map Prod.fst).Nodup) :
    ((tinsert st uid p).map Prod.fst).Nodup := by
  rw [keys_tinsert]
  by_cases hmem : uid ∈ st.map Prod.fst
  · simpa [hmem] using h
  · simp [hmem, List.nodup_append, h]

/-- A key that is absent from the tracker has no entries. -/
theorem keyCount_eq_zero (st : Tracker) (uid : Int)
    (h : uid ∉ st.map Prod.fst) : keyCount st uid = 0 := by
  induction st with
  | nil => rfl
  | cons kv rest ih =>
    obtain ⟨k, v⟩ := kv
    simp only [List.map_cons, List.mem_cons] at h
    push_neg at h
    have hk : (k == uid) = false := by simp [Ne.symm h.1]
    simp [keyCount, List.filter_cons, hk]
    simpa [keyCount] using ih h.2

/-- After a dict assignment on a duplicate-free tracker, the assigned key is
stored exactly once. -/
theorem keyCount_tinsert (st : Tracker) (uid : Int) (p : PendingReply)
    (h : (st.map Prod.fst).Nodup) : keyCount (tinsert st uid p) uid = 1 := by
  induction st with
  | nil => simp [tinsert, keyCount]
  | cons kv rest ih =>
    obtain ⟨k, v⟩ := kv
    simp only [List.map_cons, List.nodup_cons] at h
    by_cases hk : k = uid
    · have hzero : keyCount rest uid = 0 :=
        keyCount_eq_zero rest uid (by simpa [hk] using h.1)
      simp [tinsert, hk, keyCount, List.filter_cons] at hzero ⊢
      simpa [keyCount] using hzero
    · have hkf : (k == uid) = false := by simp [hk]
      simp [tinsert, hk, keyCount, List.filter_cons, hkf]
      simpa [keyCount] using ih h.2

/-! ### Claim theorems -/

/-- C1: every call of the reply engine submit (reply_to_comment) attempts
exactly the encodings whose preconditions hold, in the fixed order:
structured body with link and mention (only when both mentionAccountId and
mentionDisplayName are present, that is, truthy), then structured body with
link only (always), then plain text with mention (only when mentionAccountId
is present), then the plain reply text; the calls actually made are the
failing attempts followed by the first accepted one, so the engine returns
true at the first attempt that does not raise and makes no further backend
calls after it. -/
theorem c1_cascade_order_and_first_success (backend : Attempt → Bool)
    (url issue_key parent_comment_id reply_text : String)
    (mention_account_id mention_display_name : Option String) :
    ((mkAttempts url issue_key parent_comment_id reply_text
        mention_account_id mention_display_name).map Attempt.label
      = (if optTruthy mention_account_id && optTruthy mention_display_name then
          ["ADF with mention and link"] else [])
        ++ ["ADF with link only"]
        ++ (if optTruthy mention_account_id then ["plain text with mention"] else [])
        ++ ["plain comment"])
    ∧ (reply_to_comment backend url issue_key parent_comment_id reply_text
        mention_account_id mention_display_name).calls
      = (mkAttempts url issue_key parent_comment_id reply_text
          mention_account_id mention_display_name).takeWhile (fun a => !backend a)
        ++ ((mkAttempts url issue_key parent_comment_id reply_text
          mention_account_id mention_display_name).dropWhile
            (fun a => !backend a)).take 1
    ∧ ((reply_to_comment backend url issue_key parent_comment_id reply_text
        mention_account_id mention_display_name).ok = true
      ↔ ∃ a ∈ mkAttempts url issue_key parent_comment_id reply_text
          mention_account_id mention_display_name, backend a = true) := by
  refine ⟨mkAttempts_labels url issue_key parent_comment_id reply_text
      mention_account_id mention_display_name,
    runAttempts_calls backend _, ?_⟩
  rw [reply_to_comment, runAttempts_ok]
  exact List.any_eq_true

/-- C1 witness: evaluated at the scenario inputs with a backend that accepts
only the plain-text-with-mention attempt. -/
theorem c1_cascade_order_and_first_success_witness :
    ((mkAttempts "https://jira.example.com" "PROJ-123" "10000" "Fixed now"
        (some "acct-1") (some "Ann")).map Attempt.label
      = (if optTruthy (some "acct-1") && optTruthy (some "Ann") then
          ["ADF with mention and link"] else [])
        ++ ["ADF with link only"]
        ++ (if optTruthy (some "acct-1") then ["plain text with mention"] else [])
        ++ ["plain comment"])
    ∧ (reply_to_comment (fun a => a.label == "plain text with mention")
        "https://jira.example.com" "PROJ-123" "10000" "Fixed now"
        (some "acct-1") (some "Ann")).calls
      = (mkAttempts "https://jira.example.com" "PROJ-123" "10000" "Fixed now"
          (some "acct-1") (some "Ann")).takeWhile
            (fun a => !(a.label == "plain text with mention"))
        ++ ((mkAttempts "https://jira.example.com" "PROJ-123" "10000" "Fixed now"
          (some "acct-1") (some "Ann")).dropWhile
            (fun a => !(a.label == "plain text with mention"))).take 1
    ∧ ((reply_to_comment (fun a => a.label == "plain text with mention")
        "https://jira.example.com" "PROJ-123" "10000" "Fixed now"
        (some "acct-1") (some "Ann")).ok = true
      ↔ ∃ a ∈ mkAttempts "https://jira.example.com" "PROJ-123" "10000" "Fixed now"
          (some "acct-1") (some "Ann"), (a.label == "plain text with mention") = true) :=
  c1_cascade_order_and_first_success (fun a => a.label == "plain text with mention")
    "https://jira.example.com" "PROJ-123" "10000" "Fixed now"
    (some "acct-1") (some "Ann")

/-- C2: the reply engine submit returns false exactly when every eligible
attempt raises; in that case every attempt of the cascade was made (no
single failure aborts it), and since the link-only and plain-text attempts
are unconditional, at least two backend calls were made before false is
returned. -/
theorem c2_false_iff_all_attempts_raise (backend : Attempt → Bool)
    (url issue_key parent_comment_id reply_text : String)
    (mention_account_id mention_display_name : Option String) :
    ((reply_to_comment backend url issue_key parent_comment_id reply_text
        mention_account_id mention_display_name).ok = false
      ↔ ∀ a ∈ mkAttempts url issue_key parent_comment_id reply_text
          mention_account_id mention_display_name, backend a = false)
    ∧ ((reply_to_comment backend url issue_key parent_comment_id reply_text
        mention_account_id mention_display_name).ok = false →
      (reply_to_comment backend url issue_key parent_comment_id reply_text
          mention_account_id mention_display_name).calls
        = mkAttempts url issue_key parent_comment_id reply_text
            mention_account_id mention_display_name
      ∧ 2 ≤ (reply_to_comment backend url issue_key parent_comment_id reply_text
          mention_account_id mention_display_name).calls.length) := by
  have hok : (reply_to_comment backend url issue_key parent_comment_id reply_text
      mention_account_id mention_display_name).ok
        = (mkAttempts url issue_key parent_comment_id reply_text
            mention_account_id mention_display_name).any backend :=
    runAttempts_ok backend _
  constructor
  · rw [hok]
    simp [List.any_eq_false]
  · intro hfalse
    have hall : ∀ a ∈ mkAttempts url issue_key parent_comment_id reply_text
        mention_account_id mention_display_name, backend a = false := by
      rw [hok] at hfalse
      simpa [List.any_eq_false] using hfalse
    have hcalls : (reply_to_comment backend url issue_key parent_comment_id
        reply_text mention_account_id mention_display_name).calls
          = mkAttempts url issue_key parent_comment_id reply_text
              mention_account_id mention_display_name :=
      runAttempts_calls_of_all_fail backend _ hall
    refine ⟨hcalls, ?_⟩
    rw [hcalls]
    exact mkAttempts_length_ge_two url issue_key parent_comment_id reply_text
      mention_account_id mention_display_name

/-- C2 witness: evaluated with a backend that raises on every attempt. -/
theorem c2_false_iff_all_attempts_raise_witness :
    (reply_to_comment (fun _ => false) "https://jira.example.com" "PROJ-123"
        "10000" "Fixed now" (some "acct-1") (some "Ann")).ok = false
    ∧ (reply_to_comment (fun _ => false) "https://jira.example.com" "PROJ-123"
        "10000" "Fixed now" (some "acct-1") (some "Ann")).calls
      = mkAttempts "https://jira.example.com" "PROJ-123" "10000" "Fixed now"
          (some "acct-1") (some "Ann")
    ∧ 2 ≤ (reply_to_comment (fun _ => false) "https://jira.example.com" "PROJ-123"
        "10000" "Fixed now" (some "acct-1") (some "Ann")).calls.length := by
  have h := c2_false_iff_all_attempts_raise (fun _ => false)
    "https://jira.example.com" "PROJ-123" "10000" "Fixed now"
    (some "acct-1") (some "Ann")
  have hfalse := h.1.mpr (fun a _ => rfl)
  exact ⟨hfalse, (h.2 hfalse).1, (h.2 hfalse).2⟩

/-- C3: evaluation of the reply flow at the scenario intent (issue PROJ-123,
parent comment 10000, author account id acct-1, author display name Ann,
reply text "Fixed now"). handle_reply_message passes the pre-formatted
mention text as the mention_account_id argument of reply_to_comment and
never passes mention_display_name, so the first backend attempt is the
ADF-link-only encoding, not the structured-mention one: with a backend that
accepts every attempt the single call made is labelled "ADF with link only",
and even with a backend that rejects every attempt (so the whole cascade
runs) the structured-mention encoding is never attempted. -/
theorem c3_structured_mention_never_attempted :
    backendCallLabels (handleReplyMessage [] "https://jira.example.com"
        (fun _ => true)
        [(42, ⟨"PROJ-123", "10000", some "Ann", some "acct-1",
          some "Original comment body"⟩)] 42 "Fixed now").2
      = ["ADF with link only"]
    ∧ backendCallLabels (handleReplyMessage [] "https://jira.example.com"
        (fun _ => false)
        [(42, ⟨"PROJ-123", "10000", some "Ann", some "acct-1",
          some "Original comment body"⟩)] 42 "Fixed now").2
      = ["ADF with link only", "plain text with mention", "plain comment"] :=
  ⟨rfl, rfl⟩

/-- C4: when the user has a pending intent, the message is not a cancel
command, and every cascade attempt raises, the user receives the generic
failure message, the pending intent was removed as the very first effect of
the handler (so before the engine was invoked), and afterwards the user has
no pending intent. -/
theorem c4_all_attempts_failed_flow (allowed_user_ids : List Int)
    (url : String) (backend : Attempt → Bool) (st : Tracker) (user_id : Int)
    (text : String) (p : PendingReply)
    (hauth : is_authorized allowed_user_ids user_id = true)
    (hpend : tlookup st user_id = some p)
    (hnc1 : pyLower (pyStrip text) ≠ "/cancel")
    (hnc2 : pyLower (pyStrip text) ≠ "cancel")
    (hfail : ∀ a, backend a = false) :
    tlookup (handleReplyMessage allowed_user_ids url backend st user_id text).1
        user_id = none
    ∧ (handleReplyMessage allowed_user_ids url backend st user_id text).2.head?
        = some (Effect.trackerDel user_id)
    ∧ Effect.reply ("❌ Failed to add reply to comment on " ++ p.issue_key
          ++ ". Please try again.")
        ∈ (handleReplyMessage allowed_user_ids url backend st user_id text).2 := by
  have hcond : (pyLower (pyStrip text) == "/cancel"
      || pyLower (pyStrip text) == "cancel") = false := by
    simp [hnc1, hnc2]
  have hokAll : ∀ (u ik pc rt : String) (ma md : Option String),
      (reply_to_comment backend u ik pc rt ma md).ok = false := by
    intro u ik pc rt ma md
    rw [reply_to_comment, runAttempts_ok]
    exact List.any_eq_false.mpr (fun a _ => by simp [hfail a])
  refine ⟨?_, ?_, ?_⟩
  · simp [handleReplyMessage, hauth, hpend, hcond, tlookup_terase_self]
  · simp [handleReplyMessage, hauth, hpend, hcond]
  · simp [handleReplyMessage, hauth, hpend, hcond, hokAll]

/-- C4 witness: evaluated at a concrete pending intent with an
always-raising backend. -/
theorem c4_all_attempts_failed_flow_witness :
    is_authorized [] 42 = true
    ∧ tlookup [(42, ⟨"PROJ-123", "10000", some "Ann", some "acct-1",
        some "Original comment body"⟩)] 42
      = some ⟨"PROJ-123", "10000", some "Ann", some "acct-1",
          some "Original comment body"⟩
    ∧ pyLower (pyStrip "Fixed now") ≠ "/cancel"
    ∧ pyLower (pyStrip "Fixed now") ≠ "cancel"
    ∧ tlookup (handleReplyMessage [] "https://jira.example.com" (fun _ => false)
        [(42, ⟨"PROJ-123", "10000", some "Ann", some "acct-1",
          some "Original comment body"⟩)] 42 "Fixed now").1 42 = none
    ∧ (handleReplyMessage [] "https://jira.example.com" (fun _ => false)
        [(42, ⟨"PROJ-123", "10000", some "Ann", some "acct-1",
          some "Original comment body"⟩)] 42 "Fixed now").2.head?
      = some (Effect.trackerDel 42)
    ∧ Effect.reply ("❌ Failed to add reply to comment on PROJ-123."
          ++ " Please try again.")
        ∈ (handleReplyMessage [] "https://jira.example.com" (fun _ => false)
          [(42, ⟨"PROJ-123", "10000", some "Ann", some "acct-1",
            some "Original comment body"⟩)] 42 "Fixed now").2 := by
  have h := c4_all_attempts_failed_flow [] "https://jira.example.com"
    (fun _ => false)
    [(42, ⟨"PROJ-123", "10000", some "Ann", some "acct-1",
      some "Original comment body"⟩)] 42 "Fixed now"
    ⟨"PROJ-123", "10000", some "Ann", some "acct-1",
      some "Original comment body"⟩
    (by decide) (by decide) (by decide) (by decide) (fun _ => rfl)
  exact ⟨by decide, by decide, by decide, by decide, h.1, h.2.1, by
    simpa using h.2.2⟩

/-- C5: for an authorized user with no pending reply intent, an incoming
free-text message leaves the tracker unchanged and produces no effect at
all: no chat message and no backend call. -/
theorem c5_no_pending_silently_ignored (allowed_user_ids : List Int)
    (url : String) (backend : Attempt → Bool) (st : Tracker) (user_id : Int)
    (text : String)
    (hauth : is_authorized allowed_user_ids user_id = true)
    (hnone : tlookup st user_id = none) :
    handleReplyMessage allowed_user_ids url backend st user_id text = (st, []) := by
  simp [handleReplyMessage, hauth, hnone]

/-- C5 witness: evaluated at a concrete user with an empty tracker. -/
theorem c5_no_pending_silently_ignored_witness :
    is_authorized [] 7 = true
    ∧ tlookup [] 7 = none
    ∧ handleReplyMessage [] "https://jira.example.com" (fun _ => true) [] 7
        "hello there" = ([], []) :=
  ⟨by decide, rfl,
    c5_no_pending_silently_ignored [] "https://jira.example.com"
      (fun _ => true) [] 7 "hello there" (by decide) rfl⟩

/-- C6: for an authorized user with a pending intent, a message whose
stripped text lowercases to "cancel" or "/cancel" removes the intent,
produces exactly the tracker deletion and the cancellation chat message (in
particular no backend call), and leaves the user with no pending intent. -/
theorem c6_cancel_clears_intent (allowed_user_ids : List Int) (url : String)
    (backend : Attempt → Bool) (st : Tracker) (user_id : Int) (text : String)
    (p : PendingReply)
    (hauth : is_authorized allowed_user_ids user_id = true)
    (hpend : tlookup st user_id = some p)
    (hcancel : pyLower (pyStrip text) = "/cancel"
      ∨ pyLower (pyStrip text) = "cancel") :
    handleReplyMessage allowed_user_ids url backend st user_id text
      = (terase st user_id,
         [Effect.trackerDel user_id, Effect.reply "❌ Reply cancelled."])
    ∧ tlookup (terase st user_id) user_id = none := by
  have hcond : (pyLower (pyStrip text) == "/cancel"
      || pyLower (pyStrip text) == "cancel") = true := by
    rcases hcancel with h | h <;> simp [h]
  refine ⟨?_, tlookup_terase_self st user_id⟩
  simp [handleReplyMessage, hauth, hpend, hcond]

/-- C6 witness: evaluated at the message " CANCEL " with a concrete pending
intent. -/
theorem c6_cancel_clears_intent_witness :
    is_authorized [] 42 = true
    ∧ tlookup [(42, ⟨"PROJ-123", "10000", some "Ann", some "acct-1",
        some "Original comment body"⟩)] 42
      = some ⟨"PROJ-123", "10000", some "Ann", some "acct-1",
          some "Original comment body"⟩
    ∧ pyLower (pyStrip " CANCEL ") = "cancel"
    ∧ handleReplyMessage [] "https://jira.example.com" (fun _ => true)
        [(42, ⟨"PROJ-123", "10000", some "Ann", some "acct-1",
          some "Original comment body"⟩)] 42 " CANCEL "
      = ([], [Effect.trackerDel 42, Effect.reply "❌ Reply cancelled."])
    ∧ tlookup (terase [(42, ⟨"PROJ-123", "10000", some "Ann", some "acct-1",
        some "Original comment body"⟩)] 42) 42 = none := by
  have h := c6_cancel_clears_intent [] "https://jira.example.com"
    (fun _ => true)
    [(42, ⟨"PROJ-123", "10000", some "Ann", some "acct-1",
      some "Original comment body"⟩)] 42 " CANCEL "
    ⟨"PROJ-123", "10000", some "Ann", some "acct-1",
      some "Original comment body"⟩
    (by decide) (by decide) (Or.inr (by decide))
  exact ⟨by decide, by decide, by decide, by simpa using h.1, h.2⟩

/-- C7: when the reply button is pressed for a comment id that is not in the
fetched comment list, the user is shown the "Comment not found." message and
the tracker is left exactly as it was, so no pending intent is created. -/
theorem c7_comment_not_found (st : Tracker) (user_id : Int)
    (issue_key comment_id : String) (comments : List CommentRecord)
    (hmiss : ∀ c ∈ comments, c.id ≠ comment_id) :
    buttonCallbackReply (Except.ok comments) st user_id issue_key comment_id
      = (st, [Effect.editMessage "Comment not found."]) := by
  have hfind : comments.find? (fun c => c.id == comment_id) = none := by
    apply List.find?_eq_none.mpr
    intro c hc
    simp [hmiss c hc]
  simp [buttonCallbackReply, get_issue_comments, hfind]

/-- C7 witness: evaluated at a one-comment list that does not contain the
target comment id. -/
theorem c7_comment_not_found_witness :
    buttonCallbackReply
        (Except.ok [⟨"10000", "Ann", some "acct-1", "Original comment body",
          "2024-01-01T00:00:00.000+0000"⟩])
        [] 42 "PROJ-123" "99999"
      = ([], [Effect.editMessage "Comment not found."]) :=
  c7_comment_not_found [] 42 "PROJ-123" "99999"
    [⟨"10000", "Ann", some "acct-1", "Original comment body",
      "2024-01-01T00:00:00.000+0000"⟩]
    (by decide)

/-- C8: pressing the reply button twice for the same user before any consume
leaves exactly one stored intent for that user, the one captured by the
second press (last-write-wins), and a tracker whose keys were duplicate-free
stays duplicate-free, so no user is stored more than once. -/
theorem c8_last_write_wins (f1 f2 : Except String (List CommentRecord))
    (st : Tracker) (user_id : Int) (ik1 cid1 ik2 cid2 : String)
    (ca cb : CommentRecord)
    (h1 : (get_issue_comments f1).find? (fun c => c.id == cid1) = some ca)
    (h2 : (get_issue_comments f2).find? (fun c => c.id == cid2) = some cb)
    (hnodup : (st.map Prod.fst).Nodup) :
    tlookup (buttonCallbackReply f2
        (buttonCallbackReply f1 st user_id ik1 cid1).1 user_id ik2 cid2).1
        user_id
      = some ⟨ik2, cid2, some cb.author, cb.author_account_id, some cb.body⟩
    ∧ keyCount (buttonCallbackReply f2
        (buttonCallbackReply f1 st user_id ik1 cid1).1 user_id ik2 cid2).1
        user_id = 1
    ∧ (((buttonCallbackReply f2
        (buttonCallbackReply f1 st user_id ik1 cid1).1 user_id ik2 cid2).1).map
          Prod.fst).Nodup := by
  simp only [buttonCallbackReply, h1, h2]
  exact ⟨tlookup_tinsert_self _ _ _,
    keyCount_tinsert _ _ _ (keys_nodup_tinsert st user_id _ hnodup),
    keys_nodup_tinsert _ _ _ (keys_nodup_tinsert st user_id _ hnodup)⟩

/-- C8 witness: two presses for user 42, first targeting comment 10000 and
then comment 10001, starting from an empty tracker. -/
theorem c8_last_write_wins_witness :
    ([(10 : Int), 42].Nodup : Prop)
    ∧ tlookup (buttonCallbackReply
        (Except.ok [⟨"10001", "Bob", none, "second body", "2024-01-02"⟩])
        (buttonCallbackReply
          (Except.ok [⟨"10000", "Ann", some "acct-1", "first body", "2024-01-01"⟩])
          [(10, ⟨"OTHER-1", "1", some "Zoe", none, some "zzz"⟩)] 42 "PROJ-123"
          "10000").1 42 "PROJ-123" "10001").1 42
      = some ⟨"PROJ-123", "10001", some "Bob", none, some "second body"⟩
    ∧ keyCount (buttonCallbackReply
        (Except.ok [⟨"10001", "Bob", none, "second body", "2024-01-02"⟩])
        (buttonCallbackReply
          (Except.ok [⟨"10000", "Ann", some "acct-1", "first body", "2024-01-01"⟩])
          [(10, ⟨"OTHER-1", "1", some "Zoe", none, some "zzz"⟩)] 42 "PROJ-123"
          "10000").1 42 "PROJ-123" "10001").1 42 = 1 := by
  have h := c8_last_write_wins
    (Except.ok [⟨"10000", "Ann", some "acct-1", "first body", "2024-01-01"⟩])
    (Except.ok [⟨"10001", "Bob", none, "second body", "2024-01-02"⟩])
    [(10, ⟨"OTHER-1", "1", some "Zoe", none, some "zzz"⟩)] 42 "PROJ-123"
    "10000" "PROJ-123" "10001"
    ⟨"10000", "Ann", some "acct-1", "first body", "2024-01-01"⟩
    ⟨"10001", "Bob", none, "second body", "2024-01-02"⟩
    (by decide) (by decide) (by decide)
  exact ⟨by decide, h.1, h.2.1⟩

/-- C9: with an empty allow-list every user id is authorized; with a
non-empty allow-list a user id is authorized exactly when it is in the
list. -/
theorem c9_is_authorized_allow_list (allowed_user_ids : List Int)
    (user_id : Int) :
    (allowed_user_ids = [] → is_authorized allowed_user_ids user_id = true)
    ∧ (allowed_user_ids ≠ [] →
        (is_authorized allowed_user_ids user_id = true
          ↔ user_id ∈ allowed_user_ids)) := by
  constructor
  · intro h
    simp [is_authorized, h]
  · intro h
    have hne : allowed_user_ids.isEmpty = false := by
      simpa [List.isEmpty_iff] using h
    simp [is_authorized, hne]

/-- C9 witness: empty list authorizes user 3; the list holding only 5
authorizes 5 and rejects 3. -/
theorem c9_is_authorized_allow_list_witness :
    is_authorized [] 3 = true
    ∧ ([(5 : Int)] ≠ [])
    ∧ is_authorized [5] 5 = true
    ∧ is_authorized [5] 3 = false := by
  refine ⟨(c9_is_authorized_allow_list [] 3).1 rfl, by decide, ?_, ?_⟩
  · exact ((c9_is_authorized_allow_list [5] 5).2 (by decide)).mpr (by decide)
  · have h := (c9_is_authorized_allow_list [5] 3).2 (by decide)
    by_contra hc
    have : is_authorized [5] 3 = true := by
      cases hval : is_authorized [5] 3
      · exact absurd hval hc
      · rfl
    exact absurd (h.mp this) (by decide)

/-- C10: a backend error while fetching the comment list makes
get_issue_comments return the empty list, so the reply-button handler
behaves exactly as it does for a genuinely missing comment: the user is
shown "Comment not found.", no intent is created, and the two failure kinds
produce identical observable outcomes. -/
theorem c10_fetch_error_indistinguishable (e : String) (st : Tracker)
    (user_id : Int) (issue_key comment_id : String) :
    get_issue_comments (Except.error e) = ([] : List CommentRecord)
    ∧ buttonCallbackReply (Except.error e) st user_id issue_key comment_id
      = buttonCallbackReply (Except.ok []) st user_id issue_key comment_id
    ∧ buttonCallbackReply (Except.error e) st user_id issue_key comment_id
      = (st, [Effect.editMessage "Comment not found."]) :=
  ⟨rfl, rfl, rfl⟩

end JiraGram
